import Mathlib

/-!
Verification of the authorization middleware
(`src/mcp/app/middleware/authorization.py`): claims extraction,
role/scope verifiers, and the list-tools / call-tool flows.

Python strings are modelled as Lean `String`s, with the string
operations the middleware uses (`startswith`, slicing, `split`)
implemented over the character list so they compute by `decide`.
-/

/-- Python `s.startswith(pre)`. -/
def pyStartsWith (s pre : String) : Bool :=
  pre.data.isPrefixOf s.data

/-- Python `s[n:]`: drop the first `n` characters. -/
def pyDrop (s : String) (n : Nat) : String :=
  String.mk (s.data.drop n)

/-- Split a character list at every character satisfying `p`, keeping
empty pieces. -/
def splitOnPred (p : Char → Bool) : List Char → List (List Char)
  | [] => [[]]
  | x :: xs =>
    match splitOnPred p xs with
    | [] => [[x]]
    | r :: rs => if p x then [] :: r :: rs else (x :: r) :: rs

/-- Python `s.split(".")`. -/
def pySplitDot (s : String) : List String :=
  (splitOnPred (fun c => c == '.') s.data).map String.mk

/-- Python `s.split()`: split on whitespace, dropping empty pieces. -/
def pySplit (s : String) : List String :=
  ((splitOnPred Char.isWhitespace s.data).map String.mk).filter
    (fun t => t != "")

/-- JSON-like claim values: strings, lists of strings, nested mappings,
or any other value (numbers, null, ...). -/
inductive JVal where
  | str : String → JVal
  | list : List String → JVal
  | obj : List (String × JVal) → JVal
  | other : JVal

/-- A claims mapping, as `dict[str, Any]`: an association list with the
first binding of a key the one `dict.get` returns. -/
abbrev Claims := List (String × JVal)

/-- Python `m.get(k, d)`: the value bound to `k`, or the default `d`. -/
def objGetD (m : List (String × JVal)) (k : String) (d : JVal) : JVal :=
  match m.find? (fun p => p.1 == k) with
  | some p => p.2
  | none => d

/-- The segment walk of `RoleBasedVerifier._extract_roles`: at each
segment a non-mapping node returns the empty set, a missing key yields
the default `[]`; at the end a list becomes a set and anything else the
empty set. -/
def walkRoles : JVal → List String → Finset String
  | cur, [] =>
    match cur with
    | JVal.list xs => xs.toFinset
    | _ => ∅
  | cur, p :: ps =>
    match cur with
    | JVal.obj m => walkRoles (objGetD m p (JVal.list [])) ps
    | _ => ∅

/-- The segment walk of `ScopeBasedVerifier._extract_scopes`: the
missing-key default is `""`; at the end a non-empty string is split on
whitespace into a set, a list becomes a set, anything else the empty
set. -/
def walkScopes : JVal → List String → Finset String
  | cur, [] =>
    match cur with
    | JVal.str s => if s != "" then (pySplit s).toFinset else ∅
    | JVal.list xs => xs.toFinset
    | _ => ∅
  | cur, p :: ps =>
    match cur with
    | JVal.obj m => walkScopes (objGetD m p (JVal.str "")) ps
    | _ => ∅

/-- A tool descriptor: the attributes the middleware reads. -/
structure Tool where
  name : String
  enabled : Bool
  tags : List String
deriving DecidableEq

/-- Configuration fields of `RoleBasedVerifier`. -/
structure RoleBasedVerifier where
  claims_path : String
  allow_no_role_tags : Bool

/-- The pydantic field defaults of `RoleBasedVerifier`. -/
def RoleBasedVerifier.defaultConfig : RoleBasedVerifier :=
  ⟨"realm_access.roles", false⟩

/-- Embedding of `RoleBasedVerifier._extract_roles`. -/
def RoleBasedVerifier.extractRoles (v : RoleBasedVerifier) (claims : Claims) :
    Finset String :=
  walkRoles (JVal.obj claims) (pySplitDot v.claims_path)

/-- Embedding of `RoleBasedVerifier.verify`. -/
def RoleBasedVerifier.verify (v : RoleBasedVerifier) (claims : Claims)
    (tool : Tool) : Bool :=
  let user_roles := v.extractRoles claims
  let tool_tags := tool.tags
  if "role:all" ∈ tool_tags then
    true
  else
    let role_tags := tool_tags.filter (fun tag => pyStartsWith tag "role:")
    if role_tags.isEmpty then
      v.allow_no_role_tags
    else
      role_tags.any (fun tag => decide (pyDrop tag 5 ∈ user_roles))

/-- Configuration fields of `ScopeBasedVerifier`. -/
structure ScopeBasedVerifier where
  claims_path : String
  allow_no_scope_tags : Bool

/-- The pydantic field defaults of `ScopeBasedVerifier`. -/
def ScopeBasedVerifier.defaultConfig : ScopeBasedVerifier :=
  ⟨"scope", false⟩

/-- Embedding of `ScopeBasedVerifier._extract_scopes`. -/
def ScopeBasedVerifier.extractScopes (v : ScopeBasedVerifier) (claims : Claims) :
    Finset String :=
  walkScopes (JVal.obj claims) (pySplitDot v.claims_path)

/-- Embedding of `ScopeBasedVerifier.verify`. -/
def ScopeBasedVerifier.verify (v : ScopeBasedVerifier) (claims : Claims)
    (tool : Tool) : Bool :=
  let user_scopes := v.extractScopes claims
  let scope_tags := tool.tags.filter (fun tag => pyStartsWith tag "scope:")
  if scope_tags.isEmpty then
    v.allow_no_scope_tags
  else
    let required_scopes := scope_tags.map (fun tag => pyDrop tag 6)
    required_scopes.all (fun scope => decide (scope ∈ user_scopes))

/-- The declared role set of a tool: its `role:` tags with the prefix
stripped (spec §4.2, step 1 of the role-based variant). -/
def requiredRoles (tool : Tool) : List String :=
  (tool.tags.filter (fun t => pyStartsWith t "role:")).map (fun t => pyDrop t 5)

/-- The declared scope set of a tool: its `scope:` tags with the prefix
stripped (spec §4.2, step 1 of the scope-based variant). -/
def requiredScopes (tool : Tool) : List String :=
  (tool.tags.filter (fun t => pyStartsWith t "scope:")).map (fun t => pyDrop t 6)

/-- C1: a tool tagged `role:all` is allowed for every claims mapping,
independent of the caller's extracted roles. -/
theorem roleAll_always_allows (v : RoleBasedVerifier) (claims : Claims)
    (tool : Tool) (h : "role:all" ∈ tool.tags) :
    v.verify claims tool = true := by
  simp [RoleBasedVerifier.verify, h]

/-- Example tool tagged `role:all`. -/
def exT1 : Tool := ⟨"T1", true, ["role:all"]⟩

/-- C1 witness: the default role verifier on empty claims allows `exT1`. -/
theorem roleAll_always_allows_witness :
    "role:all" ∈ exT1.tags ∧
      RoleBasedVerifier.defaultConfig.verify [] exT1 = true :=
  ⟨by decide, roleAll_always_allows RoleBasedVerifier.defaultConfig [] exT1
    (by decide)⟩

/-- Example claims with roles at the default path `realm_access.roles`. -/
def adminClaims : Claims :=
  [("realm_access", JVal.obj [("roles", JVal.list ["admin"])])]

/-- Example tool tagged `role:admin`. -/
def exT2 : Tool := ⟨"T2", true, ["role:admin"]⟩

/-- Example tool with no tags. -/
def exT3 : Tool := ⟨"T3", true, []⟩

/-- C2: with at least one `role:` tag and no `role:all`, the role
verifier allows iff the caller's extracted role set meets the declared
role set (OR semantics). -/
theorem role_verify_or_semantics (v : RoleBasedVerifier) (claims : Claims)
    (tool : Tool)
    (h1 : tool.tags.filter (fun t => pyStartsWith t "role:") ≠ [])
    (h2 : "role:all" ∉ tool.tags) :
    (v.verify claims tool = true ↔
      ∃ r ∈ requiredRoles tool, r ∈ v.extractRoles claims) := by
  simp only [RoleBasedVerifier.verify, if_neg h2, requiredRoles]
  rw [if_neg (by simpa [List.isEmpty_iff] using h1)]
  rw [List.any_eq_true]
  simp only [List.mem_filter, List.mem_map, decide_eq_true_eq]
  constructor
  · rintro ⟨t, ⟨ht, hp⟩, hr⟩
    exact ⟨pyDrop t 5, ⟨t, ⟨ht, hp⟩, rfl⟩, hr⟩
  · rintro ⟨r, ⟨t, ⟨ht, hp⟩, rfl⟩, hr⟩
    exact ⟨t, ⟨ht, hp⟩, hr⟩

/-- C2 witness: `exT2` is allowed for caller roles `{admin}` exactly
because the intersection is non-empty. -/
theorem role_verify_or_semantics_witness :
    RoleBasedVerifier.defaultConfig.verify adminClaims exT2 = true ↔
      ∃ r ∈ requiredRoles exT2,
        r ∈ RoleBasedVerifier.defaultConfig.extractRoles adminClaims :=
  role_verify_or_semantics RoleBasedVerifier.defaultConfig adminClaims exT2
    (by decide) (by decide)

/-- C3: with at least one `scope:` tag, the scope verifier allows iff
every declared scope is held (AND semantics); with none, it returns the
`allow_no_scope_tags` flag. -/
theorem scope_verify_and_semantics (v : ScopeBasedVerifier) (claims : Claims)
    (tool : Tool) :
    (tool.tags.filter (fun t => pyStartsWith t "scope:") ≠ [] →
      (v.verify claims tool = true ↔
        ∀ s ∈ requiredScopes tool, s ∈ v.extractScopes claims)) ∧
    (tool.tags.filter (fun t => pyStartsWith t "scope:") = [] →
      v.verify claims tool = v.allow_no_scope_tags) := by
  constructor
  · intro h1
    simp only [ScopeBasedVerifier.verify, requiredScopes]
    rw [if_neg (by simpa [List.isEmpty_iff] using h1)]
    constructor
    · intro hall s hs
      rcases List.mem_map.mp hs with ⟨t, ht, rfl⟩
      have := List.all_eq_true.mp hall (pyDrop t 6) (List.mem_map.mpr ⟨t, ht, rfl⟩)
      exact of_decide_eq_true this
    · intro hmem
      exact List.all_eq_true.mpr fun s hs => decide_eq_true (hmem s hs)
  · intro h0
    simp [ScopeBasedVerifier.verify, h0]

/-- Example scope claims: the OAuth2 space-delimited `scope` string. -/
def scopeClaims : Claims := [("scope", JVal.str "read:data write:data")]

/-- Example tool with two scope tags. -/
def exT4 : Tool := ⟨"T4", true, ["scope:read:data", "scope:write:data"]⟩

/-- C3 witness: both cases of the scope semantics at concrete tools. -/
theorem scope_verify_and_semantics_witness :
    (ScopeBasedVerifier.defaultConfig.verify scopeClaims exT4 = true ↔
      ∀ s ∈ requiredScopes exT4,
        s ∈ ScopeBasedVerifier.defaultConfig.extractScopes scopeClaims) ∧
    ScopeBasedVerifier.defaultConfig.verify scopeClaims exT3 =
      ScopeBasedVerifier.defaultConfig.allow_no_scope_tags :=
  ⟨(scope_verify_and_semantics ScopeBasedVerifier.defaultConfig scopeClaims
      exT4).1 (by decide),
   (scope_verify_and_semantics ScopeBasedVerifier.defaultConfig scopeClaims
      exT3).2 (by decide)⟩

/-- C4: with zero `role:` tags the role verifier returns exactly the
`allow_no_role_tags` flag, whose default value is `false`. -/
theorem role_no_tags_returns_flag (v : RoleBasedVerifier) (claims : Claims)
    (tool : Tool)
    (h : tool.tags.filter (fun t => pyStartsWith t "role:") = []) :
    v.verify claims tool = v.allow_no_role_tags ∧
      RoleBasedVerifier.defaultConfig.allow_no_role_tags = false := by
  have hall : "role:all" ∉ tool.tags := by
    intro hm
    have hmem : "role:all" ∈ tool.tags.filter (fun t => pyStartsWith t "role:") :=
      List.mem_filter.mpr ⟨hm, by decide⟩
    rw [h] at hmem
    simp at hmem
  refine ⟨?_, rfl⟩
  simp [RoleBasedVerifier.verify, hall, h]

/-- C4 witness: the untagged tool `exT3` under the default config. -/
theorem role_no_tags_returns_flag_witness :
    RoleBasedVerifier.defaultConfig.verify adminClaims exT3 =
        RoleBasedVerifier.defaultConfig.allow_no_role_tags ∧
      RoleBasedVerifier.defaultConfig.allow_no_role_tags = false :=
  role_no_tags_returns_flag RoleBasedVerifier.defaultConfig adminClaims exT3
    (by decide)

/-- Python exceptions the call-tool flow distinguishes: `ToolError`
versus every other `Exception`. -/
inductive Exc where
  | toolError : String → Exc
  | otherExc : String → Exc
deriving DecidableEq

/-- The message of the disabled-tool `ToolError`. -/
def toolDisabledMsg : String := "Tool is currently disabled"

/-- The message of the access-denied `ToolError`. -/
def accessDeniedMsg : String :=
  "Access denied. You do not have permission to execute this tool."

/-- The body of the `try` block of `AuthorizationMiddleware.on_call_tool`:
resolve the tool, reject if disabled, run the verifier, reject if denied.
Any step may raise. -/
def authCheck (lookup : String → Except Exc Tool) (claims : Claims)
    (verify : Claims → Tool → Except Exc Bool) (name : String) :
    Except Exc Unit :=
  match lookup name with
  | Except.error e => Except.error e
  | Except.ok tool =>
    if !tool.enabled then
      Except.error (Exc.toolError toolDisabledMsg)
    else
      match verify claims tool with
      | Except.error e => Except.error e
      | Except.ok ok =>
        if !ok then
          Except.error (Exc.toolError accessDeniedMsg)
        else
          Except.ok ()

/-- Outcome of the call-tool flow: a `ToolError` propagated to the
caller, or the continuation's result returned unchanged. -/
inductive CallOutcome (R : Type) where
  | raised : String → CallOutcome R
  | forwarded : R → CallOutcome R
deriving DecidableEq

/-- Embedding of `AuthorizationMiddleware.on_call_tool`: with a server context, run
the authorization block; re-raise a `ToolError`, swallow any other
exception; forward to the continuation when nothing was re-raised. -/
def on_call_tool {R : Type} (hasCtx : Bool) (lookup : String → Except Exc Tool)
    (claims : Claims) (verify : Claims → Tool → Except Exc Bool)
    (name : String) (callNext : R) : CallOutcome R :=
  if hasCtx then
    match authCheck lookup claims verify name with
    | Except.ok _ => CallOutcome.forwarded callNext
    | Except.error (Exc.toolError m) => CallOutcome.raised m
    | Except.error (Exc.otherExc _) => CallOutcome.forwarded callNext
  else
    CallOutcome.forwarded callNext

/-- Embedding of `AuthorizationMiddleware.on_list_tools`: start from an empty list and
append every tool the verifier accepts, in order. -/
def on_list_tools (claims : Claims) (vf : Claims → Tool → Bool)
    (result : List Tool) : List Tool :=
  result.foldl (fun acc tool => if vf claims tool then acc ++ [tool] else acc) []

/-- The append-fold of `on_list_tools` is `filter`, for any accumulator. -/
theorem on_list_tools_foldl_eq (vf : Tool → Bool) (l : List Tool)
    (acc : List Tool) :
    l.foldl (fun a t => if vf t then a ++ [t] else a) acc =
      acc ++ l.filter vf := by
  induction l generalizing acc with
  | nil => simp
  | cons t ts ih =>
    by_cases h : vf t = true
    · simp [h, ih, List.filter_cons]
    · simp [h, ih, List.filter_cons]

/-- C5: in the call-tool flow with the tool resolved and enabled, a
`false` verdict raises `AccessDenied` without invoking the continuation,
and a `true` verdict forwards and returns the continuation's result
unchanged. -/
theorem on_call_tool_decides (R : Type) (lookup : String → Except Exc Tool)
    (claims : Claims) (vf : Claims → Tool → Bool) (name : String)
    (tool : Tool) (hres : lookup name = Except.ok tool)
    (hen : tool.enabled = true) :
    (vf claims tool = false →
      ∀ r : R, on_call_tool true lookup claims
        (fun c t => Except.ok (vf c t)) name r =
          CallOutcome.raised accessDeniedMsg) ∧
    (vf claims tool = true →
      ∀ r : R, on_call_tool true lookup claims
        (fun c t => Except.ok (vf c t)) name r =
          CallOutcome.forwarded r) := by
  constructor
  · intro hv r
    simp [on_call_tool, authCheck, hres, hen, hv]
  · intro hv r
    simp [on_call_tool, authCheck, hres, hen, hv]

/-- A concrete registry resolving every name to `exT2`. -/
def lookupT2 : String → Except Exc Tool := fun _ => Except.ok exT2

/-- C5 witness: calling `exT2` with roles `{admin}` forwards; with empty
claims it raises `AccessDenied`. -/
theorem on_call_tool_decides_witness :
    on_call_tool true lookupT2 adminClaims
        (fun c t => Except.ok (RoleBasedVerifier.defaultConfig.verify c t))
        "T2" (0 : Nat) = CallOutcome.forwarded 0 ∧
      on_call_tool true lookupT2 []
        (fun c t => Except.ok (RoleBasedVerifier.defaultConfig.verify c t))
        "T2" (0 : Nat) = CallOutcome.raised accessDeniedMsg :=
  ⟨(on_call_tool_decides Nat lookupT2 adminClaims
      RoleBasedVerifier.defaultConfig.verify "T2" exT2 rfl rfl).2 (by decide) 0,
   (on_call_tool_decides Nat lookupT2 []
      RoleBasedVerifier.defaultConfig.verify "T2" exT2 rfl rfl).1 (by decide) 0⟩

/-- C7: when tool resolution raises a non-`ToolError` exception (unknown
tool included), the call-tool flow forwards to the continuation and
raises nothing. -/
theorem unresolved_tool_forwards (R : Type) (lookup : String → Except Exc Tool)
    (claims : Claims) (verify : Claims → Tool → Except Exc Bool)
    (name m : String) (r : R)
    (hres : lookup name = Except.error (Exc.otherExc m)) :
    on_call_tool true lookup claims verify name r =
      CallOutcome.forwarded r := by
  simp [on_call_tool, authCheck, hres]

/-- A registry that resolves no name. -/
def lookupNone : String → Except Exc Tool :=
  fun n => Except.error (Exc.otherExc ("Unknown tool: " ++ n))

/-- C7 witness: an unknown name forwards to the continuation. -/
theorem unresolved_tool_forwards_witness :
    on_call_tool true lookupNone adminClaims
        (fun c t => Except.ok (RoleBasedVerifier.defaultConfig.verify c t))
        "nope" (0 : Nat) = CallOutcome.forwarded 0 :=
  unresolved_tool_forwards Nat lookupNone adminClaims
    (fun c t => Except.ok (RoleBasedVerifier.defaultConfig.verify c t))
    "nope" ("Unknown tool: " ++ "nope") 0 rfl

/-- C9: a resolved but disabled tool raises `ToolDisabled` for every
claims mapping and every verifier — the verifier is never consulted. -/
theorem disabled_tool_raises (R : Type) (lookup : String → Except Exc Tool)
    (claims : Claims) (verify : Claims → Tool → Except Exc Bool)
    (name : String) (tool : Tool) (r : R)
    (hres : lookup name = Except.ok tool) (hen : tool.enabled = false) :
    on_call_tool true lookup claims verify name r =
      CallOutcome.raised toolDisabledMsg := by
  simp [on_call_tool, authCheck, hres, hen]

/-- A disabled example tool. -/
def exT5 : Tool := ⟨"T5", false, ["role:all"]⟩

/-- A verifier that always raises, to show it is not consulted. -/
def raisingVerify : Claims → Tool → Except Exc Bool :=
  fun _ _ => Except.error (Exc.otherExc "boom")

/-- C9 witness: the disabled `exT5` raises `ToolDisabled` even under an
always-raising verifier. -/
theorem disabled_tool_raises_witness :
    on_call_tool true (fun _ => Except.ok exT5) adminClaims raisingVerify
        "T5" (0 : Nat) = CallOutcome.raised toolDisabledMsg :=
  disabled_tool_raises Nat (fun _ => Except.ok exT5) adminClaims raisingVerify
    "T5" exT5 0 rfl rfl

/-- C10: a non-`ToolError` exception raised by the verifier itself on an
enabled, resolved tool is swallowed and the request is forwarded — a
raising verifier grants access. -/
theorem raising_verifier_grants (R : Type) (lookup : String → Except Exc Tool)
    (claims : Claims) (verify : Claims → Tool → Except Exc Bool)
    (name m : String) (tool : Tool) (r : R)
    (hres : lookup name = Except.ok tool) (hen : tool.enabled = true)
    (hv : verify claims tool = Except.error (Exc.otherExc m)) :
    on_call_tool true lookup claims verify name r =
      CallOutcome.forwarded r := by
  simp [on_call_tool, authCheck, hres, hen, hv]

/-- C10 witness: the always-raising verifier forwards the call on the
enabled tool `exT2`. -/
theorem raising_verifier_grants_witness :
    on_call_tool true lookupT2 adminClaims raisingVerify "T2" (0 : Nat) =
      CallOutcome.forwarded 0 :=
  raising_verifier_grants Nat lookupT2 adminClaims raisingVerify "T2" "boom"
    exT2 0 rfl rfl rfl

/-- C6: the list-tools flow returns exactly the filter of the downstream
collection by the verifier — an order-preserving subsequence of bounded
size — and on `[exT1, exT2, exT3]` with empty claims under the default
role config it returns exactly `[exT1]`. -/
theorem list_tools_is_filter (claims : Claims) (vf : Claims → Tool → Bool)
    (tools : List Tool) :
    on_list_tools claims vf tools = tools.filter (vf claims) ∧
      (on_list_tools claims vf tools).Sublist tools ∧
      (on_list_tools claims vf tools).length ≤ tools.length ∧
      on_list_tools [] RoleBasedVerifier.defaultConfig.verify
        [exT1, exT2, exT3] = [exT1] := by
  have heq : on_list_tools claims vf tools = tools.filter (vf claims) := by
    simpa using on_list_tools_foldl_eq (vf claims) tools []
  refine ⟨heq, ?_, ?_, by decide⟩
  · rw [heq]
    exact List.filter_sublist tools
  · rw [heq]
    exact List.length_filter_le (vf claims) tools

/-- Example claims `{a: {b: {c: ["x","y"]}}}` from the spec. -/
def exClaimsABC : Claims :=
  [("a", JVal.obj [("b", JVal.obj [("c", JVal.list ["x", "y"])])])]

/-- Example claims `{a: {b: {}}}` from the spec. -/
def exClaimsAB : Claims := [("a", JVal.obj [("b", JVal.obj [])])]

/-- C8: the extractors are total functions covering every claim shape: a
missing segment or a non-mapping node yields the empty set; at the
terminal segment role mode accepts only lists, scope mode splits a
non-empty string on whitespace, coerces a list, and maps anything else
to the empty set; the spec's `a.b.c` examples evaluate as stated. -/
theorem extractors_total (v : RoleBasedVerifier) :
    (∀ (m : Claims) (k : String) (ps : List String),
      m.find? (fun p => p.1 == k) = none →
        walkRoles (JVal.obj m) (k :: ps) = ∅ ∧
          walkScopes (JVal.obj m) (k :: ps) = ∅) ∧
    (∀ (cur : JVal) (k : String) (ps : List String),
      (∀ m : Claims, cur ≠ JVal.obj m) →
        walkRoles cur (k :: ps) = ∅ ∧ walkScopes cur (k :: ps) = ∅) ∧
    (∀ s : String, walkRoles (JVal.str s) [] = ∅) ∧
    (∀ m : Claims, walkRoles (JVal.obj m) [] = ∅) ∧
    walkRoles JVal.other [] = ∅ ∧
    (∀ xs : List String, walkRoles (JVal.list xs) [] = xs.toFinset) ∧
    (∀ s : String, s ≠ "" → walkScopes (JVal.str s) [] = (pySplit s).toFinset) ∧
    walkScopes (JVal.str "") [] = ∅ ∧
    (∀ xs : List String, walkScopes (JVal.list xs) [] = xs.toFinset) ∧
    (∀ m : Claims, walkScopes (JVal.obj m) [] = ∅) ∧
    walkScopes JVal.other [] = ∅ ∧
    (v.claims_path = "a.b.c" →
      v.extractRoles exClaimsABC = ({"x", "y"} : Finset String) ∧
        v.extractRoles exClaimsAB = ∅ ∧ v.extractRoles [] = ∅) := by
  refine ⟨?_, ?_, ?_, ?_, ?_, ?_, ?_, ?_, ?_, ?_, ?_, ?_⟩
  · intro m k ps h
    cases ps with
    | nil => simp [walkRoles, walkScopes, objGetD, h]
    | cons q qs => simp [walkRoles, walkScopes, objGetD, h]
  · intro cur k ps h
    cases cur with
    | str s => simp [walkRoles, walkScopes]
    | list xs => simp [walkRoles, walkScopes]
    | obj m => exact absurd rfl (h m)
    | other => simp [walkRoles, walkScopes]
  · intro s
    simp [walkRoles]
  · intro m
    simp [walkRoles]
  · simp [walkRoles]
  · intro xs
    simp [walkRoles]
  · intro s hs
    have hb : (s != "") = true := by
      simpa using hs
    simp [walkScopes, hb]
  · simp [walkScopes]
  · intro xs
    simp [walkScopes]
  · intro m
    simp [walkScopes]
  · simp [walkScopes]
  · intro hpath
    unfold RoleBasedVerifier.extractRoles
    rw [hpath]
    refine ⟨by decide, by decide, by decide⟩

/-- C8 witness: the hypothesis-bearing conjuncts of `extractors_total`
applied at concrete claims and paths. -/
theorem extractors_total_witness :
    (walkRoles (JVal.obj []) ["a"] = ∅ ∧ walkScopes (JVal.obj []) ["a"] = ∅) ∧
      (walkRoles (JVal.str "z") ["a"] = ∅ ∧
        walkScopes (JVal.str "z") ["a"] = ∅) ∧
      walkScopes (JVal.str "x y") [] = (pySplit "x y").toFinset ∧
      (RoleBasedVerifier.extractRoles ⟨"a.b.c", false⟩ exClaimsABC =
          ({"x", "y"} : Finset String) ∧
        RoleBasedVerifier.extractRoles ⟨"a.b.c", false⟩ exClaimsAB = ∅ ∧
        RoleBasedVerifier.extractRoles ⟨"a.b.c", false⟩ [] = ∅) :=
  ⟨(extractors_total ⟨"a.b.c", false⟩).1 [] "a" [] rfl,
   (extractors_total ⟨"a.b.c", false⟩).2.1 (JVal.str "z") "a" []
     (fun m h => JVal.noConfusion h),
   (extractors_total ⟨"a.b.c", false⟩).2.2.2.2.2.2.1 "x y" (by decide),
   (extractors_total ⟨"a.b.c", false⟩).2.2.2.2.2.2.2.2.2.2.2 rfl⟩
